import Mathlib

/-!
Verification development for the user-service pipeline application
(`src/user-service/app.py`).

The Python program is shallowly embedded: every external effect (HTTP
responses of third-party APIs, exit codes and output of spawned
processes, file-marker checks in the cloned workspace, wall-clock
readings) is supplied by an explicit oracle structure, and each Python
function becomes a total Lean function of its inputs, the ambient
environment-variable record and the oracle.  A Python exception that the
source catches is represented as an oracle outcome (for example
`CmdOutcome.exc` or an `Option` that is `none`), so "never raises" is
expressed by totality of the embedded function.
-/

/-- Stage status vocabulary used throughout the service. -/
inductive Status where
  | success
  | failed
  | in_progress
  | unknown
deriving DecidableEq, Repr

/-- Stage ids are integers, except the validation-failure stage whose id is
the string "error" in the source. -/
inductive StageId where
  | num (n : Nat)
  | error
deriving DecidableEq, Repr

/-- One pipeline stage record, mirroring the dictionaries built by the
handlers (keys id, name, status, detail, url, log). -/
structure Stage where
  id : StageId
  name : String
  status : Status
  detail : Option String := none
  url : Option String := none
  log : Option String := none
deriving DecidableEq, Repr

/-- Normalized probe result, the dictionary shape returned by every status
probe in the overview handler. -/
structure ProbeResult where
  status : Status
  detail : Option String := none
  url : Option String := none
deriving DecidableEq, Repr

/-- Environment variables read by the program (os.environ.get results);
`none` models an unset variable. -/
structure Env where
  githubToken : Option String := none
  githubRepo : Option String := none
  jenkinsUrl : Option String := none
  jenkinsJob : Option String := none
  jenkinsUser : Option String := none
  jenkinsToken : Option String := none
  dockerhubRepo : Option String := none
  dockerhubTag : Option String := none
  dockerhubUser : Option String := none
  dockerhubPass : Option String := none
  k8sDeployment : Option String := none
  k8sNamespace : Option String := none
deriving DecidableEq, Repr

/-- Python truthiness of an optional string: None and the empty string are
falsy, every other string is truthy. -/
def truthy (o : Option String) : Bool :=
  match o with
  | none => false
  | some s => !s.isEmpty

/-- Python `a or b` on two optional strings (used for
`body.get(..) or request.args.get(..)`). -/
def pyOrOpt (a b : Option String) : Option String :=
  if truthy a then a else b

/-- Python `a or d` with a string default (used for
`os.environ.get(..) or default`). -/
def pyOrD (o : Option String) (d : String) : String :=
  if truthy o then o.getD d else d

/-- Splitting a character list at every occurrence of a separator
character (no collapsing of empty fields), the list-level model of
Python str.split with a one-character separator. -/
def splitChars (sep : Char) : List Char → List (List Char)
  | [] => [[]]
  | c :: rest =>
    let r := splitChars sep rest
    if c = sep then [] :: r
    else
      match r with
      | [] => [[c]]
      | h :: t => (c :: h) :: t

/-- Python `s.split(sep)` for a one-character separator. -/
def splitOnChar (s : String) (sep : Char) : List String :=
  (splitChars sep s.data).map String.mk

/-- Whether the first list starts with the second one. -/
def startsWithChars : List Char → List Char → Bool
  | [], _ => true
  | _ :: _, [] => false
  | p :: ps, c :: cs => p = c && startsWithChars ps cs

/-- Whether the pattern occurs inside the list. -/
def containsChars (pat : List Char) : List Char → Bool
  | [] => pat.isEmpty
  | c :: cs => startsWithChars pat (c :: cs) || containsChars pat cs

/-- Substring test, modelling the Python `in` operator on strings. -/
def strContains (s pat : String) : Bool :=
  containsChars pat.data s.data

/-- Lower-casing, modelling Python str.lower on ASCII output text. -/
def strLower (s : String) : String :=
  String.mk (s.data.map Char.toLower)

/-- Python str.rstrip(chars): remove trailing characters drawn from a set. -/
def rstripChars (s : String) (cs : List Char) : String :=
  String.mk ((s.data.reverse.dropWhile (fun c => cs.contains c)).reverse)

/-- Last component of a slash-separated string, modelling
`s.split('/')[-1]`. -/
def lastPart (s : String) : String :=
  (splitOnChar s '/').getLastD s

/-- Outcome of one spawned external process, as observed by
`subprocess.run` inside `runCmd`: normal completion with an exit code
and combined stdout+stderr text, a `TimeoutExpired`, or any other
exception with its message. -/
inductive CmdOutcome where
  | ok (rc : Int) (out : String)
  | timeout
  | exc (msg : String)
deriving DecidableEq, Repr

/-- Embedding of the command runner at app.py lines 342-351 (its Python
name is runCmd here to satisfy identifier rules): run a command and
return `(returncode, stdout+stderr)`; on `TimeoutExpired` return
`(-1, "command timed out")`; on any other exception return
`(-1, "error running command: <message>")`.  Totality of this function
models the fact that `runCmd` never raises. -/
def runCmd (o : CmdOutcome) : Int × String :=
  match o with
  | .ok rc out => (rc, out)
  | .timeout => (-1, "command timed out")
  | .exc m => (-1, "error running command: " ++ m)

/- ---------------------------------------------------------------------
Status probes of the /api/overview handler (app.py lines 145-251).
--------------------------------------------------------------------- -/

/-- Fields of one GitHub Actions workflow run used by the probe. -/
structure RunInfo where
  status : Option String := none
  conclusion : Option String := none
  htmlUrl : Option String := none
deriving DecidableEq, Repr

/-- Reply observed for the workflow-runs request of
`github_actions_status`; `runs = none` models `resp.json()` raising. -/
structure GhResp where
  code : Nat := 200
  runs : Option (List RunInfo) := some []
deriving DecidableEq, Repr

/-- Parsed Jenkins lastBuild body; `result` is the build result field. -/
structure JenkinsBody where
  result : Option String := none
  url : Option String := none
deriving DecidableEq, Repr

/-- Reply observed for the Jenkins lastBuild request; `body = none`
models `resp.json()` raising. -/
structure JenkinsResp where
  code : Nat := 200
  body : Option JenkinsBody := none
deriving DecidableEq, Repr

/-- Result of the `kubectl get deployment` call inside
`kubernetes_deploy_status`: a `CalledProcessError`, any other exception
(timeout, missing binary, json parse failure), or parsed replica counts
after the source's defaulting (spec 1, status counts 0). -/
inductive KubeOutcome where
  | cpe
  | exc
  | ok (specReplicas availableReplicas updatedReplicas : Nat)
deriving DecidableEq, Repr

/-- Parsed Prometheus instant-query body: the body status field and the
float parse of each sample value (`none` when `float(..)` raises). -/
structure PromBody where
  status : Option String := none
  result : List (Option Rat) := []
deriving DecidableEq, Repr

/-- Reply observed for the Prometheus query; `body = none` models
`resp.json()` raising. -/
structure PromResp where
  code : Nat := 200
  body : Option PromBody := none
deriving DecidableEq, Repr

/-- Oracle for the overview handler's probes: the reply each external
system would give; `none` at the top level models the HTTP request
itself raising a network error. -/
structure OverviewWorld where
  ghResp : Option GhResp := none
  jenkinsResp : Option JenkinsResp := none
  dhCode : Option Nat := none
  kube : KubeOutcome := .exc
  promResp : Option PromResp := none
deriving DecidableEq, Repr

/-- Embedding of `github_actions_status` (app.py lines 168-191):
requires GITHUB_REPO and GITHUB_TOKEN, fetches the most recent workflow
run and maps its status/conclusion to the status enum;
`raise_for_status` makes any response code at least 400 raise, which the
probe swallows into `none`. -/
def github_actions_status (e : Env) (w : OverviewWorld) : Option ProbeResult :=
  if truthy e.githubRepo = false ∨ truthy e.githubToken = false then none
  else
    match w.ghResp with
    | none => none
    | some resp =>
      if 400 ≤ resp.code then none
      else
        match resp.runs with
        | none => none
        | some [] => none
        | some (run :: _) =>
          if run.status = some "in_progress" ∨ run.status = some "queued" then
            some ⟨.in_progress, run.status, run.htmlUrl⟩
          else if run.status = some "completed" then
            some ⟨(if run.conclusion = some "success" then .success else .failed),
                  run.conclusion, run.htmlUrl⟩
          else some ⟨.unknown, run.status, run.htmlUrl⟩

/-- Embedding of `jenkins_status` (app.py lines 194-215): requires
JENKINS_URL and JENKINS_JOB, reads the lastBuild result; an absent
result means the build is still running. -/
def jenkins_status (e : Env) (w : OverviewWorld) : Option ProbeResult :=
  if truthy e.jenkinsUrl = false ∨ truthy e.jenkinsJob = false then none
  else
    match w.jenkinsResp with
    | none => none
    | some resp =>
      if 400 ≤ resp.code then none
      else
        match resp.body with
        | none => none
        | some b =>
          match b.result with
          | none => some ⟨.in_progress, some "building", b.url⟩
          | some res =>
            if res = "SUCCESS" then some ⟨.success, some res, b.url⟩
            else some ⟨.failed, some res, b.url⟩

/-- Embedding of `dockerhub_status` (app.py lines 218-232): requires
DOCKERHUB_REPO; checks existence of a tag; 200 means present, 404 means
not yet pushed, and any other reached status code yields an `unknown`
result (this probe does not call raise_for_status). -/
def dockerhub_status (e : Env) (w : OverviewWorld) : Option ProbeResult :=
  if truthy e.dockerhubRepo = false then none
  else
    let repo := e.dockerhubRepo.getD ""
    let tag := pyOrD e.dockerhubTag "latest"
    match w.dhCode with
    | none => none
    | some c =>
      if c = 200 then
        some ⟨.success, some ("tag " ++ tag ++ " present"),
              some ("https://hub.docker.com/r/" ++ repo ++ "/tags")⟩
      else if c = 404 then
        some ⟨.in_progress, some ("tag " ++ tag ++ " not found"),
              some ("https://hub.docker.com/r/" ++ repo ++ "/tags")⟩
      else some ⟨.unknown, some ("status " ++ toString c), none⟩

/-- Embedding of `kubernetes_deploy_status` (app.py lines 235-251): a
CalledProcessError of the CLI maps to a failed result, any other
exception to `none`, and parsed replica counts to success when both
available and updated reach the desired count, else in_progress.  The
deployment name, namespace and CLI path environment variables only
select the command's arguments and cannot be missing (they default). -/
def kubernetes_deploy_status (w : OverviewWorld) : Option ProbeResult :=
  match w.kube with
  | .cpe => some ⟨.failed, some "kubectl error or deployment not found", none⟩
  | .exc => none
  | .ok specReplicas avail upd =>
    if specReplicas ≤ avail ∧ specReplicas ≤ upd then
      some ⟨.success, some (toString avail ++ "/" ++ toString specReplicas ++ " replicas available"), none⟩
    else
      some ⟨.in_progress, some (toString avail ++ "/" ++ toString specReplicas ++ " replicas available"), none⟩

/-- Embedding of `prom_query` (app.py lines 145-159): the metrics query
probe; the backend URL always has a default so configuration can never
be missing; any raise (network, non-2xx via raise_for_status, json or
float parse) and any non-success body status or empty result list yield
`none`. -/
def prom_query (w : OverviewWorld) : Option Rat :=
  match w.promResp with
  | none => none
  | some resp =>
    if 400 ≤ resp.code then none
    else
      match resp.body with
      | none => none
      | some b =>
        if b.status ≠ some "success" then none
        else
          match b.result with
          | [] => none
          | v :: _ => v

/- ---------------------------------------------------------------------
CI trigger helpers.  app.py defines `trigger_github_workflow` and
`trigger_jenkins_job` TWICE at module level (lines 13-56 / 365-386 and
lines 58-83 / 388-415).  Python rebinds the module-level name at each
def, so at every call site the later definition is the one invoked; both
versions are embedded here and the unsuffixed name is bound to the later
one, mirroring that resolution.
--------------------------------------------------------------------- -/

/-- One outgoing HTTP request (method and URL) made by a CI trigger
helper. -/
structure HttpReq where
  method : String
  url : String
deriving DecidableEq, Repr

/-- Result of a CI trigger helper: the Python return pair
`(success, message)` where the first component may be True, False or
None, plus the list of HTTP requests the helper issued. -/
structure CITriggerResult where
  ok : Option Bool
  msg : String
  calls : List HttpReq
deriving DecidableEq, Repr

/-- Oracle for the CI trigger helpers: status codes of the HTTP replies
(`none` models the request raising) together with exception and body
texts used in messages. -/
structure CIWorld where
  v1ListCode : Option Nat := none
  v1ListText : String := ""
  v1Workflows : Option (List Nat) := some []
  v1PostCode : Option Nat := none
  v1PostText : String := ""
  v1Exc : String := ""
  v1JenkinsCode : Option Nat := none
  v1JenkinsExc : String := ""
  ghPostCode : Option Nat := none
  ghExc : String := ""
  jenkinsPostCode : Option Nat := none
  jenkinsExc : String := ""
deriving DecidableEq, Repr

/-- Message of the ValueError raised by unpacking `repo.split('/')` into
two names when the split does not have exactly two parts (used by the
second `trigger_github_workflow`). -/
def unpack2Msg (n : Nat) : String :=
  if 2 < n then "too many values to unpack (expected 2)"
  else "not enough values to unpack (expected 2, got " ++ toString n ++ ")"

/-- Embedding of the FIRST `trigger_github_workflow` (app.py lines
13-56): requires GITHUB_TOKEN (returning `(False, ..)` when missing),
lists the repository's workflows and dispatches the first one. -/
def trigger_github_workflow_def1 (e : Env) (cw : CIWorld) (repo branch : String) : CITriggerResult :=
  if truthy e.githubToken = false then ⟨some false, "GitHub token not configured", []⟩
  else
    let parts := splitOnChar (rstripChars repo ['.', 'g', 'i', 't']) '/'
    if parts.length < 2 then ⟨some false, "Invalid repository URL", []⟩
    else
      let ownerRepo := String.intercalate "/" (parts.drop (parts.length - 2))
      let url := "https://api.github.com/repos/" ++ ownerRepo ++ "/actions/workflows"
      match cw.v1ListCode with
      | none => ⟨some false, cw.v1Exc, [⟨"GET", url⟩]⟩
      | some c =>
        if c ≠ 200 then ⟨some false, "Failed to list workflows: " ++ cw.v1ListText, [⟨"GET", url⟩]⟩
        else
          match cw.v1Workflows with
          | none => ⟨some false, cw.v1Exc, [⟨"GET", url⟩]⟩
          | some [] => ⟨some false, "No workflows found", [⟨"GET", url⟩]⟩
          | some (wid :: _) =>
            let turl := url ++ "/" ++ toString wid ++ "/dispatches"
            match cw.v1PostCode with
            | none => ⟨some false, cw.v1Exc, [⟨"GET", url⟩, ⟨"POST", turl⟩]⟩
            | some pc =>
              if pc = 204 then
                ⟨some true, "GitHub Actions workflow triggered successfully", [⟨"GET", url⟩, ⟨"POST", turl⟩]⟩
              else ⟨some false, "Failed to trigger workflow: " ++ cw.v1PostText, [⟨"GET", url⟩, ⟨"POST", turl⟩]⟩

/-- Embedding of the SECOND `trigger_github_workflow` (app.py lines
365-386): requires GITHUB_TOKEN (returning `(None, ..)` when missing)
and posts a workflow_dispatch for the fixed workflow file ci-cd.yml,
without listing workflows. -/
def trigger_github_workflow_def2 (e : Env) (cw : CIWorld) (repo branch : String) : CITriggerResult :=
  if truthy e.githubToken = false then ⟨none, "GitHub token not configured", []⟩
  else
    if (splitOnChar repo '/').length ≠ 2 then
      ⟨some false, "Error triggering GitHub Actions: " ++ unpack2Msg (splitOnChar repo '/').length, []⟩
    else
      let url := "https://api.github.com/repos/" ++ repo ++ "/actions/workflows/ci-cd.yml/dispatches"
      match cw.ghPostCode with
      | none => ⟨some false, "Error triggering GitHub Actions: " ++ cw.ghExc, [⟨"POST", url⟩]⟩
      | some c =>
        if c = 204 then ⟨some true, "GitHub Actions workflow triggered successfully", [⟨"POST", url⟩]⟩
        else ⟨some false, "Failed to trigger workflow: " ++ toString c, [⟨"POST", url⟩]⟩

/-- The module-level name `trigger_github_workflow` resolves to the
later definition (Python rebinding). -/
def trigger_github_workflow : Env → CIWorld → String → String → CITriggerResult :=
  trigger_github_workflow_def2

/-- Embedding of the FIRST `trigger_jenkins_job` (app.py lines 58-83):
requires all of JENKINS_URL, JENKINS_JOB and JENKINS_TOKEN; posts
buildWithParameters (token passed as a query parameter) and succeeds
only on status 201. -/
def trigger_jenkins_job_def1 (e : Env) (cw : CIWorld) (repo branch : String) : CITriggerResult :=
  if truthy e.jenkinsUrl = false ∨ truthy e.jenkinsJob = false ∨ truthy e.jenkinsToken = false then
    ⟨some false, "Jenkins configuration incomplete", []⟩
  else
    let url := e.jenkinsUrl.getD "" ++ "/job/" ++ e.jenkinsJob.getD "" ++ "/buildWithParameters"
    match cw.v1JenkinsCode with
    | none => ⟨some false, cw.v1JenkinsExc, [⟨"POST", url⟩]⟩
    | some c =>
      if c = 201 then ⟨some true, "Jenkins job triggered successfully", [⟨"POST", url⟩]⟩
      else ⟨some false, "Failed to trigger Jenkins job: " ++ toString c, [⟨"POST", url⟩]⟩

/-- Embedding of the SECOND `trigger_jenkins_job` (app.py lines
388-415): requires only JENKINS_URL and JENKINS_JOB (returning
`(None, ..)` when either is missing), uses basic auth only when both
JENKINS_USER and JENKINS_TOKEN are present, and accepts status 201 or
200. -/
def trigger_jenkins_job_def2 (e : Env) (cw : CIWorld) (repo branch : String) : CITriggerResult :=
  if truthy e.jenkinsUrl = false ∨ truthy e.jenkinsJob = false then
    ⟨none, "Jenkins URL/job not configured", []⟩
  else
    let url := rstripChars (e.jenkinsUrl.getD "") ['/'] ++ "/job/" ++ e.jenkinsJob.getD "" ++ "/buildWithParameters"
    match cw.jenkinsPostCode with
    | none => ⟨some false, "Error triggering Jenkins job: " ++ cw.jenkinsExc, [⟨"POST", url⟩]⟩
    | some c =>
      if c = 201 ∨ c = 200 then ⟨some true, "Jenkins job triggered successfully", [⟨"POST", url⟩]⟩
      else ⟨some false, "Failed to trigger Jenkins job: " ++ toString c, [⟨"POST", url⟩]⟩

/-- The module-level name `trigger_jenkins_job` resolves to the later
definition (Python rebinding). -/
def trigger_jenkins_job : Env → CIWorld → String → String → CITriggerResult :=
  trigger_jenkins_job_def2

/- ---------------------------------------------------------------------
Pipeline orchestrator: the `trigger` function (app.py lines 417-606).
--------------------------------------------------------------------- -/

/-- Oracle for one pipeline run: outcome of the repository HEAD check
(`none` models the request raising), outcome of every spawned process,
marker-file presence in the cloned workspace, the direct
`subprocess.run` docker login result, wall-clock readings and the
temporary directory path, plus the oracle for the CI fallback
helpers. -/
structure PipeWorld where
  headStatus : Option Nat := some 200
  clone : CmdOutcome := .ok 0 ""
  revParse : CmdOutcome := .ok 0 "deadbeefcafe\n"
  hasRequirements : Bool := false
  hasSetupPy : Bool := false
  hasPackageJson : Bool := false
  pytest : CmdOutcome := .ok 0 ""
  npmCi : CmdOutcome := .ok 0 ""
  npmTest : CmdOutcome := .ok 0 ""
  dockerBuild : CmdOutcome := .ok 0 ""
  loginRc : Int := 0
  loginOut : String := ""
  dockerPush : CmdOutcome := .ok 0 ""
  kubectl : CmdOutcome := .ok 0 ""
  now : Nat := 0
  duration : Nat := 0
  tmp : String := "/tmp/pipeline_x"
  ci : CIWorld := {}
deriving DecidableEq, Repr

/-- Request data reaching `trigger`: the optional JSON body fields and
the optional `repo` query parameter. -/
structure TriggerInput where
  bodyRepo : Option String := none
  bodyBranch : Option String := none
  argsRepo : Option String := none
deriving DecidableEq, Repr

/-- Body of the JSON response of `trigger`: HTTP status, pipelineStages,
optional top-level error and optional metrics.durationSeconds. -/
structure TriggerResponse where
  httpStatus : Nat
  stages : List Stage
  error : Option String := none
  durationSeconds : Option Nat := none
deriving DecidableEq, Repr

/-- Full observable outcome of one call to `trigger`: the response plus
whether the temporary workspace was created (tempfile.mkdtemp ran) and
removed (shutil.rmtree ran in the finally block), and the argument
vectors of every spawned process in order. -/
structure TriggerResult where
  response : TriggerResponse
  tmpCreated : Bool
  tmpRemoved : Bool
  spawned : List (List String)
deriving DecidableEq, Repr

/-- Diagnostic classification of clone output (app.py lines 470-479):
substring checks over the lower-cased clone log. -/
def cloneErrorDetail (branch out : String) : String :=
  let lower := strLower out
  if strContains lower "repository not found" then "Repository not found"
  else if strContains lower "could not resolve host" then "Network error - could not reach GitHub"
  else if strContains lower "authentication failed" then "Authentication failed"
  else if strContains lower "branch not found" then "Branch " ++ branch ++ " not found"
  else "Unknown error"

/-- The CI Trigger fallback stage built after a clone failure (app.py
lines 487-516): GitHub Actions dispatch is attempted first (via the
later, shadowing `trigger_github_workflow`), then Jenkins; the Python
truthiness test `if github_success:` passes only for True. -/
def ciTriggerStage (e : Env) (cw : CIWorld) (repo branch : String) : Stage :=
  let g := trigger_github_workflow e cw repo branch
  if g.ok = some true then ⟨.num 2, "CI Trigger", .success, some g.msg, none, none⟩
  else
    let j := trigger_jenkins_job e cw repo branch
    if j.ok = some true then ⟨.num 2, "CI Trigger", .success, some j.msg, none, none⟩
    else
      ⟨.num 2, "CI Trigger", .failed,
       some ("CI not configured properly. Set GITHUB_TOKEN or JENKINS_URL/JENKINS_JOB. Details: " ++ g.msg ++ ", " ++ j.msg),
       none, none⟩

/-- Exit code and combined log of the Test stage (app.py lines 525-542):
pytest for a Python project, npm ci then npm test for a Node project
(only the npm test exit code is consulted), otherwise a vacuous success
with a fixed log. -/
def testOutcome (w : PipeWorld) : Int × String :=
  if w.hasRequirements || w.hasSetupPy then
    let r := runCmd w.pytest
    (r.1, r.2)
  else if w.hasPackageJson then
    let r1 := runCmd w.npmCi
    let r2 := runCmd w.npmTest
    (r2.1, r1.2 ++ "\n" ++ r2.2)
  else (0, "no tests detected")

/-- Argument vectors spawned by the Test stage. -/
def testSpawns (w : PipeWorld) : List (List String) :=
  if w.hasRequirements || w.hasSetupPy then [["pytest", "-q"]]
  else if w.hasPackageJson then [["npm", "ci"], ["npm", "test", "--", "--watchAll=false"]]
  else []

/-- Commit sha detected after the clone (app.py lines 520-521): the
trimmed rev-parse output on success, else the integer clock reading. -/
def shaOf (w : PipeWorld) : String :=
  if (runCmd w.revParse).1 = 0 then (runCmd w.revParse).2.trim
  else toString w.now

/-- Local image tag built by the Docker Build stage (app.py lines
551-552): DOCKERHUB_REPO or the repo basename, colon, the first seven
characters of the sha. -/
def localTag (repo : String) (e : Env) (w : PipeWorld) : String :=
  pyOrD e.dockerhubRepo (lastPart repo) ++ ":" ++ (shaOf w).take 7

/-- Result of the Push stage: its stage record, whether an image was
pushed, the tag the push targeted, and the processes spawned. -/
structure PushRes where
  stage : Stage
  pushed : Bool
  fullTag : String
  spawns : List (List String)
deriving DecidableEq, Repr

/-- Embedding of the Push stage (app.py lines 560-585): only attempted
when both DOCKERHUB_USER and DOCKERHUB_PASS are truthy; with a truthy
DOCKERHUB_REPO the image is re-tagged first; docker login runs via a
direct subprocess call, and on login success the push's exit code
decides the stage status; without credentials the stage is left
in_progress with a skip log and nothing is pushed. -/
def pushOutcome (e : Env) (w : PipeWorld) (tag : String) : PushRes :=
  if truthy e.dockerhubUser = true ∧ truthy e.dockerhubPass = true then
    let fullTag := if truthy e.dockerhubRepo then e.dockerhubRepo.getD "" ++ ":" ++ (shaOf w).take 7 else tag
    let tagSpawns : List (List String) := if truthy e.dockerhubRepo then [["docker", "tag", tag, fullTag]] else []
    let loginSpawn : List (List String) := [["docker", "login", "--username", e.dockerhubUser.getD "", "--password-stdin"]]
    if w.loginRc = 0 then
      let p := runCmd w.dockerPush
      { stage := ⟨.num 4, "Docker Push", (if p.1 = 0 then .success else .failed), none, none, some (w.loginOut ++ "\n" ++ p.2)⟩,
        pushed := decide (p.1 = 0), fullTag := fullTag,
        spawns := tagSpawns ++ loginSpawn ++ [["docker", "push", fullTag]] }
    else
      { stage := ⟨.num 4, "Docker Push", .failed, none, none, some w.loginOut⟩,
        pushed := false, fullTag := fullTag, spawns := tagSpawns ++ loginSpawn }
  else
    { stage := ⟨.num 4, "Docker Push", .in_progress, none, none, some "DOCKERHUB_USER/DOCKERHUB_PASS not set — skipping push"⟩,
      pushed := false, fullTag := tag, spawns := [] }

/-- Argument vector of the clone command (app.py line 467). -/
def cloneArgv (branch repo tmp : String) : List String :=
  ["git", "clone", "--depth", "1", "--branch", branch, "https://github.com/" ++ repo ++ ".git", tmp]

/-- Argument vector of the Kubernetes deploy command (app.py line 593). -/
def deployArgv (dep ns deployTag : String) : List String :=
  ["kubectl", "set", "image", "deployment/" ++ dep, dep ++ "=" ++ deployTag, "-n", ns]

/-- The try-block of `trigger` (app.py lines 443-600), after the
temporary directory exists: the five-step sequence with its early
returns.  Every returned record also lists the spawned processes. -/
structure PipeOutcome where
  response : TriggerResponse
  spawned : List (List String)
deriving DecidableEq, Repr

/-- Embedding of the pipeline body run inside the try-block of
`trigger`: repo-not-found short-circuit, Clone (with CI-trigger fallback
on failure), Test, Docker Build, Docker Push, Kubernetes Deploy, each
non-final failure before Push returning early with the stages built so
far. -/
def pipelineBody (repo branch : String) (e : Env) (w : PipeWorld) : PipeOutcome :=
  let stage1 : Stage := ⟨.num 1, "Clone Repository", .in_progress,
    some ("Cloning " ++ repo ++ " (" ++ branch ++ " branch)"), none, none⟩
  if w.headStatus = some 404 then
    let s1 : Stage := { stage1 with
                        status := .failed,
                        detail := some ("Repository " ++ repo ++ " not found on GitHub") }
    { response := ⟨200, [s1], none, none⟩, spawned := [] }
  else
    let c := runCmd w.clone
    if c.1 ≠ 0 then
      { response := ⟨200,
          [⟨.num 1, "Clone Repository", .failed,
            some ("Clone failed: " ++ cloneErrorDetail branch c.2), none, some c.2⟩,
           ciTriggerStage e w.ci repo branch], none, none⟩,
        spawned := [cloneArgv branch repo w.tmp] }
    else
      let stage1 := { stage1 with log := some c.2 }
      let t := testOutcome w
      let stage2 : Stage := ⟨.num 2, "Run Unit Tests", (if t.1 = 0 then .success else .failed), none, none, some t.2⟩
      if t.1 ≠ 0 then
        { response := ⟨200, [stage1, stage2], some "tests failed", none⟩,
          spawned := [cloneArgv branch repo w.tmp, ["git", "rev-parse", "HEAD"]] ++ testSpawns w }
      else
        let tag := localTag repo e w
        let b := runCmd w.dockerBuild
        let stage3 : Stage := ⟨.num 3, "Docker Build", (if b.1 = 0 then .success else .failed), none, none, some b.2⟩
        if b.1 ≠ 0 then
          { response := ⟨200, [stage1, stage2, stage3], some "docker build failed", none⟩,
            spawned := [cloneArgv branch repo w.tmp, ["git", "rev-parse", "HEAD"]] ++ testSpawns w
              ++ [["docker", "build", "-t", tag, "."]] }
        else
          let pr := pushOutcome e w tag
          let deployTag := if pr.pushed then pr.fullTag else tag
          let dep := pyOrD e.k8sDeployment (lastPart repo)
          let ns := pyOrD e.k8sNamespace "default"
          let k := runCmd w.kubectl
          let stage5 : Stage := ⟨.num 5, "Kubernetes Deploy", (if k.1 = 0 then .success else .failed), none, none, some k.2⟩
          { response := ⟨200, [stage1, stage2, stage3, pr.stage, stage5], none, some w.duration⟩,
            spawned := [cloneArgv branch repo w.tmp, ["git", "rev-parse", "HEAD"]] ++ testSpawns w
              ++ [["docker", "build", "-t", tag, "."]] ++ pr.spawns
              ++ [deployArgv dep ns deployTag] }

/-- Embedding of the `trigger` function (app.py lines 417-606): resolve
repo from the JSON body or the query parameter and branch from the body
with default "main"; a falsy repo yields the 400 validation response
before the temporary directory is created or any process is spawned;
otherwise the temporary directory is created, the pipeline body runs,
and the finally-block removes the directory on every exit path. -/
def trigger (inp : TriggerInput) (e : Env) (w : PipeWorld) : TriggerResult :=
  let repoOpt := pyOrOpt inp.bodyRepo inp.argsRepo
  let branch := pyOrD inp.bodyBranch "main"
  if truthy repoOpt = false then
    { response := ⟨400, [⟨.error, "Input Validation", .failed,
        some "Repository (owner/repo) is required", none, none⟩], none, none⟩,
      tmpCreated := false, tmpRemoved := false, spawned := [] }
  else
    let body := pipelineBody (repoOpt.getD "") branch e w
    { response := body.response, tmpCreated := true, tmpRemoved := true, spawned := body.spawned }

/- ---------------------------------------------------------------------
Flask route registration (the decorators in app.py).
--------------------------------------------------------------------- -/

/-- The module-level functions of app.py that could serve as request
handlers.  `triggerFn` stands for the `trigger` function, which carries
no route decorator in the source. -/
inductive Handler where
  | home
  | metrics
  | dashboard
  | overview
  | getCiConfig
  | triggerFn
  | tools
deriving DecidableEq, Repr

/-- One registered Flask route. -/
structure RouteEntry where
  path : String
  methods : List String
  handler : Handler
deriving DecidableEq, Repr

/-- The routes registered by the decorators of app.py, in source order.
The decorator at line 354, `app.route('/api/trigger', methods=['POST'])`,
sits directly above `get_ci_config`; the `trigger` function (line 417)
has no decorator and is therefore absent from the table. -/
def routeTable : List RouteEntry :=
  [⟨"/", ["GET"], .home⟩,
   ⟨"/metrics", ["GET"], .metrics⟩,
   ⟨"/api/dashboard", ["GET"], .dashboard⟩,
   ⟨"/api/overview", ["GET"], .overview⟩,
   ⟨"/api/trigger", ["POST"], .getCiConfig⟩,
   ⟨"/api/tools", ["GET"], .tools⟩]

/-- Handler dispatched for a path and method. -/
def routeFor (path method : String) : Option Handler :=
  (routeTable.find? (fun r => r.path == path && r.methods.contains method)).map (fun r => r.handler)

/-- Response body of `get_ci_config` (app.py lines 354-363): the CI
configuration read from the environment, returned as JSON. -/
structure CIConfig where
  github_token : Option String
  jenkins_url : Option String
  jenkins_job : Option String
  jenkins_user : Option String
  jenkins_token : Option String
deriving DecidableEq, Repr

/-- Embedding of `get_ci_config`: it ignores the request entirely and
returns the five environment values. -/
def get_ci_config (e : Env) : CIConfig :=
  ⟨e.githubToken, e.jenkinsUrl, e.jenkinsJob, e.jenkinsUser, e.jenkinsToken⟩

/- ---------------------------------------------------------------------
Concrete sample inputs used by counterexamples and witnesses.
--------------------------------------------------------------------- -/

/-- A well-formed trigger request body. -/
def sampleInput : TriggerInput := { bodyRepo := some "octocat/Hello-World" }

/-- Environment with registry credentials configured. -/
def envCreds : Env := { dockerhubUser := some "u", dockerhubPass := some "p" }

/-- World where everything succeeds except the docker push. -/
def wPushDenied : PipeWorld := { dockerPush := .ok 1 "denied: requested access to the resource is denied" }

/-- World where the clone succeeds and the Python test suite fails. -/
def wTestFail : PipeWorld := { hasRequirements := true, pytest := .ok 1 "1 failed" }

/-- World where the clone command exits non-zero. -/
def wCloneFail : PipeWorld := { clone := .ok 128 "fatal: Repository not found." }

/-- Environment with a DockerHub repository configured. -/
def envDh : Env := { dockerhubRepo := some "acme/app" }

/-- Overview oracle where the DockerHub tag request answers 500. -/
def owDh500 : OverviewWorld := { dhCode := some 500 }

/-- Environment with GitHub Actions status probing configured. -/
def envGh : Env := { githubRepo := some "octocat/Hello-World", githubToken := some "tok" }

/-- Overview oracle with one queued workflow run. -/
def owQueued : OverviewWorld :=
  { ghResp := some { code := 200, runs := some [{ status := some "queued", htmlUrl := some "http://run" }] } }

/-- Environment without any CI configuration. -/
def envNoCI : Env := {}

/-- CI oracle with no replies configured. -/
def ciW0 : CIWorld := {}

/-- Environment with Jenkins URL and job but no Jenkins token. -/
def envJenkins2 : Env := { jenkinsUrl := some "http://jenkins", jenkinsJob := some "deploy-job" }

/-- CI oracle where the Jenkins build trigger answers 201. -/
def ciWJen201 : CIWorld := { jenkinsPostCode := some 201 }

/-- Environment with a GitHub token configured. -/
def envTok : Env := { githubToken := some "tok" }

/-- CI oracle where the ci-cd.yml dispatch answers 204 and no
workflow-list reply is configured. -/
def ciW204 : CIWorld := { ghPostCode := some 204 }

/- ---------------------------------------------------------------------
Claim theorems.
--------------------------------------------------------------------- -/

/-- C1: the claim says the function bound to the POST /api/trigger route
runs the five-step pipeline and answers with a stage list.  In the code
the decorator `app.route('/api/trigger', methods=['POST'])` sits on
`get_ci_config`, so the bound handler returns the CI configuration
environment values, and the pipeline function `trigger` is bound to no
route at all. -/
theorem api_trigger_route_binds_config_reader :
    routeFor "/api/trigger" "POST" = some Handler.getCiConfig ∧
    (∀ p m : String, routeFor p m ≠ some Handler.triggerFn) ∧
    get_ci_config { githubToken := some "tok", jenkinsUrl := some "http://jenkins", jenkinsJob := some "job" } =
      ⟨some "tok", some "http://jenkins", some "job", none, none⟩ := by
  refine ⟨rfl, ?_, rfl⟩
  intro p m h
  simp only [routeFor, Option.map_eq_some'] at h
  obtain ⟨r, hr, hh⟩ := h
  have hmem := List.mem_of_find?_eq_some hr
  simp only [routeTable, List.mem_cons, List.not_mem_nil, or_false] at hmem
  rcases hmem with h1 | h1 | h1 | h1 | h1 | h1 <;> subst h1 <;> simp at hh

/-- Witness for C1: the bound-handler facts at a concrete path and
method. -/
theorem api_trigger_route_binds_config_reader_witness :
    routeFor "/api/trigger" "POST" ≠ some Handler.triggerFn :=
  api_trigger_route_binds_config_reader.2.1 "/api/trigger" "POST"

/-- C3: a trigger request supplying no repo (neither body field nor
query parameter, or only falsy ones) yields the 400 validation response
with the descriptive error stage, with no temporary directory created
and no process spawned. -/
theorem trigger_missing_repo_validates_first :
    ∀ (inp : TriggerInput) (e : Env) (w : PipeWorld),
      truthy (pyOrOpt inp.bodyRepo inp.argsRepo) = false →
      trigger inp e w =
        { response := ⟨400, [⟨.error, "Input Validation", .failed,
            some "Repository (owner/repo) is required", none, none⟩], none, none⟩,
          tmpCreated := false, tmpRemoved := false, spawned := [] } := by
  intro inp e w h
  simp [trigger, h]

/-- Witness for C3 at the empty request. -/
theorem trigger_missing_repo_validates_first_witness :
    truthy (pyOrOpt (TriggerInput.mk none none none).bodyRepo (TriggerInput.mk none none none).argsRepo) = false ∧
    trigger ⟨none, none, none⟩ {} {} =
      { response := ⟨400, [⟨.error, "Input Validation", .failed,
          some "Repository (owner/repo) is required", none, none⟩], none, none⟩,
        tmpCreated := false, tmpRemoved := false, spawned := [] } :=
  ⟨rfl, trigger_missing_repo_validates_first ⟨none, none, none⟩ {} {} rfl⟩

/-- C4: the temporary workspace is removed exactly when it was created:
on the validation path no directory is made, and on every run that
reaches workspace creation (success, clone failure, repo-not-found,
test failure, build failure) the finally-block removal runs. -/
theorem trigger_workspace_always_cleaned :
    ∀ (inp : TriggerInput) (e : Env) (w : PipeWorld),
      (trigger inp e w).tmpRemoved = (trigger inp e w).tmpCreated ∧
      (truthy (pyOrOpt inp.bodyRepo inp.argsRepo) = true →
        (trigger inp e w).tmpCreated = true ∧ (trigger inp e w).tmpRemoved = true) := by
  intro inp e w
  by_cases h : truthy (pyOrOpt inp.bodyRepo inp.argsRepo) = false
  · simp [trigger, h]
  · simp [trigger, h]

/-- Witness for C4 on a run that creates the workspace. -/
theorem trigger_workspace_always_cleaned_witness :
    truthy (pyOrOpt sampleInput.bodyRepo sampleInput.argsRepo) = true ∧
    (trigger sampleInput {} {}).tmpCreated = true ∧ (trigger sampleInput {} {}).tmpRemoved = true :=
  ⟨rfl, (trigger_workspace_always_cleaned sampleInput {} {}).2 rfl⟩

/-- C5 counterexample: on a non-timeout execution error the output is
the exception message prefixed with "error running command: ", not the
exception message itself as the claim states. -/
theorem run_cmd_exc_message_prefixed_cex :
    runCmd (CmdOutcome.exc "No such file or directory") =
      (-1, "error running command: No such file or directory") ∧
    (runCmd (CmdOutcome.exc "No such file or directory")).2 ≠ "No such file or directory" := by
  exact ⟨rfl, by decide⟩

/-- C5 amended: `runCmd` always returns a pair and never raises
(totality); on timeout it returns -1 with the fixed message; on any
other execution error it returns -1 with the exception's message
prefixed by "error running command: "; on completion it returns the
process exit code and output. -/
theorem run_cmd_total_amended :
    runCmd CmdOutcome.timeout = (-1, "command timed out") ∧
    (∀ m : String, runCmd (CmdOutcome.exc m) = (-1, "error running command: " ++ m)) ∧
    (∀ (rc : Int) (out : String), runCmd (CmdOutcome.ok rc out) = (rc, out)) :=
  ⟨rfl, fun _ => rfl, fun _ _ => rfl⟩

/-- Witness for C5 amended at a concrete error message. -/
theorem run_cmd_total_amended_witness :
    runCmd (CmdOutcome.exc "boom") = (-1, "error running command: boom") :=
  run_cmd_total_amended.2.1 "boom"

/-- Helper: the CI fallback stage is always named "CI Trigger". -/
theorem ciTriggerStage_name (e : Env) (cw : CIWorld) (r b : String) :
    (ciTriggerStage e cw r b).name = "CI Trigger" := by
  simp only [ciTriggerStage]
  repeat' split
  all_goals rfl

/-- Helper: the Push stage record is always named "Docker Push". -/
theorem pushOutcome_stage_name (e : Env) (w : PipeWorld) (t : String) :
    (pushOutcome e w t).stage.name = "Docker Push" := by
  simp only [pushOutcome]
  repeat' split
  all_goals rfl

/-- C2 counterexample: a run where clone, tests and build succeed,
registry credentials are present, login succeeds and the docker push
exits non-zero still appends and executes the Kubernetes Deploy stage,
so a push failure does not stop subsequent stages. -/
theorem push_failure_still_deploys_cex :
    (trigger sampleInput envCreds wPushDenied).response.stages.map (fun s => (s.name, s.status)) =
      [("Clone Repository", Status.in_progress), ("Run Unit Tests", Status.success),
       ("Docker Build", Status.success), ("Docker Push", Status.failed),
       ("Kubernetes Deploy", Status.success)] ∧
    "Kubernetes Deploy" ∈ (trigger sampleInput envCreds wPushDenied).response.stages.map (fun s => s.name) := by
  constructor
  · decide
  · decide

/-- C2 amended: a non-zero exit of the stage-controlling command at
Clone, Test or Build marks that stage failed and stops all subsequent
stages (clone failure leaves only the Clone and CI Trigger stages; a
test failure after a successful clone yields exactly two stages, the
second failed; a build failure yields exactly three stages, the third
failed); a Push failure is non-fatal: after a successful build all five
stages are present regardless of the push outcome, and Deploy is always
the final stage. -/
theorem pipeline_short_circuit_amended :
    (∀ (inp : TriggerInput) (e : Env) (w : PipeWorld),
      truthy (pyOrOpt inp.bodyRepo inp.argsRepo) = true →
      w.headStatus ≠ some 404 →
      (runCmd w.clone).1 ≠ 0 →
      (trigger inp e w).response.stages.map (fun s => s.name) = ["Clone Repository", "CI Trigger"]) ∧
    (∀ (inp : TriggerInput) (e : Env) (w : PipeWorld),
      truthy (pyOrOpt inp.bodyRepo inp.argsRepo) = true →
      w.headStatus ≠ some 404 →
      (runCmd w.clone).1 = 0 →
      (testOutcome w).1 ≠ 0 →
      (trigger inp e w).response.stages.map (fun s => (s.name, s.status)) =
        [("Clone Repository", Status.in_progress), ("Run Unit Tests", Status.failed)] ∧
      (trigger inp e w).response.error = some "tests failed") ∧
    (∀ (inp : TriggerInput) (e : Env) (w : PipeWorld),
      truthy (pyOrOpt inp.bodyRepo inp.argsRepo) = true →
      w.headStatus ≠ some 404 →
      (runCmd w.clone).1 = 0 →
      (testOutcome w).1 = 0 →
      (runCmd w.dockerBuild).1 ≠ 0 →
      (trigger inp e w).response.stages.map (fun s => (s.name, s.status)) =
        [("Clone Repository", Status.in_progress), ("Run Unit Tests", Status.success),
         ("Docker Build", Status.failed)] ∧
      (trigger inp e w).response.error = some "docker build failed") ∧
    (∀ (inp : TriggerInput) (e : Env) (w : PipeWorld),
      truthy (pyOrOpt inp.bodyRepo inp.argsRepo) = true →
      w.headStatus ≠ some 404 →
      (runCmd w.clone).1 = 0 →
      (testOutcome w).1 = 0 →
      (runCmd w.dockerBuild).1 = 0 →
      (trigger inp e w).response.stages.map (fun s => s.name) =
        ["Clone Repository", "Run Unit Tests", "Docker Build", "Docker Push", "Kubernetes Deploy"]) := by
  refine ⟨?_, ?_, ?_, ?_⟩
  · intro inp e w h1 h2 h3
    simp [trigger, pipelineBody, h1, h2, h3, ciTriggerStage_name]
  · intro inp e w h1 h2 h3 h4
    simp [trigger, pipelineBody, h1, h2, h3, h4]
  · intro inp e w h1 h2 h3 h4 h5
    simp [trigger, pipelineBody, h1, h2, h3, h4, h5]
  · intro inp e w h1 h2 h3 h4 h5
    simp [trigger, pipelineBody, h1, h2, h3, h4, h5, pushOutcome_stage_name]

/-- Witness for C2 amended: the test-failure conjunct at a concrete
failing test run. -/
theorem pipeline_short_circuit_amended_witness :
    (testOutcome wTestFail).1 ≠ 0 ∧
    (trigger sampleInput {} wTestFail).response.stages.map (fun s => (s.name, s.status)) =
      [("Clone Repository", Status.in_progress), ("Run Unit Tests", Status.failed)] :=
  ⟨by decide,
   (pipeline_short_circuit_amended.2.1 sampleInput {} wTestFail rfl (by decide) rfl (by decide)).1⟩

/-- Helper: last element of a cons of an append ending in two fixed
elements. -/
theorem getLast?_cons_append_two {α : Type} (x b d : α) (ts : List α) :
    (x :: (ts ++ [b, d])).getLast? = some d := by
  rw [show x :: (ts ++ [b, d]) = (x :: ts) ++ [b, d] from rfl, List.getLast?_append_cons]
  rfl

/-- Helper: without both registry credentials the Push stage is the
skip record. -/
theorem pushOutcome_no_creds (e : Env) (w : PipeWorld) (t : String)
    (h : ¬(truthy e.dockerhubUser = true ∧ truthy e.dockerhubPass = true)) :
    pushOutcome e w t =
      { stage := ⟨.num 4, "Docker Push", .in_progress, none, none,
          some "DOCKERHUB_USER/DOCKERHUB_PASS not set — skipping push"⟩,
        pushed := false, fullTag := t, spawns := [] } := by
  unfold pushOutcome
  rw [if_neg h]

/-- C6: when clone, tests and build succeed and the registry credentials
are absent (not both DOCKERHUB_USER and DOCKERHUB_PASS truthy), the Push
stage is marked in_progress, the Deploy stage still runs as the fifth
stage, and the kubectl command spawned last uses the locally built
tag. -/
theorem push_skipped_without_creds :
    ∀ (inp : TriggerInput) (e : Env) (w : PipeWorld),
      truthy (pyOrOpt inp.bodyRepo inp.argsRepo) = true →
      w.headStatus ≠ some 404 →
      (runCmd w.clone).1 = 0 →
      (testOutcome w).1 = 0 →
      (runCmd w.dockerBuild).1 = 0 →
      (truthy e.dockerhubUser = true ∧ truthy e.dockerhubPass = true → False) →
      (trigger inp e w).response.stages.map (fun s => (s.name, s.status)) =
        [("Clone Repository", Status.in_progress), ("Run Unit Tests", Status.success),
         ("Docker Build", Status.success), ("Docker Push", Status.in_progress),
         ("Kubernetes Deploy", (if (runCmd w.kubectl).1 = 0 then Status.success else Status.failed))] ∧
      (trigger inp e w).spawned.getLast? =
        some (deployArgv (pyOrD e.k8sDeployment (lastPart ((pyOrOpt inp.bodyRepo inp.argsRepo).getD "")))
          (pyOrD e.k8sNamespace "default")
          (localTag ((pyOrOpt inp.bodyRepo inp.argsRepo).getD "") e w)) := by
  intro inp e w h1 h2 h3 h4 h5 h6
  have hp := pushOutcome_no_creds e w (localTag ((pyOrOpt inp.bodyRepo inp.argsRepo).getD "") e w) h6
  simp [trigger, pipelineBody, h1, h2, h3, h4, h5, hp, List.getLast?_concat, getLast?_cons_append_two]

/-- Witness for C6: a concrete run without registry credentials. -/
theorem push_skipped_without_creds_witness :
    (truthy (({} : Env)).dockerhubUser = true ∧ truthy (({} : Env)).dockerhubPass = true → False) ∧
    (trigger sampleInput {} {}).response.stages.map (fun s => (s.name, s.status)) =
      [("Clone Repository", Status.in_progress), ("Run Unit Tests", Status.success),
       ("Docker Build", Status.success), ("Docker Push", Status.in_progress),
       ("Kubernetes Deploy", Status.success)] :=
  ⟨by decide,
   by
    have h := (push_skipped_without_creds sampleInput {} {} rfl (by decide) rfl rfl rfl (by decide)).1
    simpa using h⟩

/-- C7: a non-zero clone exit terminates the run with the Clone stage
marked failed and a CI Trigger stage appended as stage 2, and no
Test/Build/Push/Deploy stages; the CI Trigger stage reports the GitHub
Actions dispatch when it succeeds, else the Jenkins build trigger, else
a combined failure detail. -/
theorem clone_failure_appends_ci_trigger :
    (∀ (inp : TriggerInput) (e : Env) (w : PipeWorld),
      truthy (pyOrOpt inp.bodyRepo inp.argsRepo) = true →
      w.headStatus ≠ some 404 →
      (runCmd w.clone).1 ≠ 0 →
      (trigger inp e w).response.stages =
        [⟨.num 1, "Clone Repository", .failed,
          some ("Clone failed: " ++ cloneErrorDetail (pyOrD inp.bodyBranch "main") (runCmd w.clone).2),
          none, some (runCmd w.clone).2⟩,
         ciTriggerStage e w.ci ((pyOrOpt inp.bodyRepo inp.argsRepo).getD "") (pyOrD inp.bodyBranch "main")] ∧
      (trigger inp e w).response.httpStatus = 200) ∧
    (∀ (e : Env) (cw : CIWorld) (r b : String),
      ((trigger_github_workflow e cw r b).ok = some true →
        ciTriggerStage e cw r b =
          ⟨.num 2, "CI Trigger", .success, some (trigger_github_workflow e cw r b).msg, none, none⟩) ∧
      ((trigger_github_workflow e cw r b).ok ≠ some true →
        (trigger_jenkins_job e cw r b).ok = some true →
        ciTriggerStage e cw r b =
          ⟨.num 2, "CI Trigger", .success, some (trigger_jenkins_job e cw r b).msg, none, none⟩) ∧
      ((trigger_github_workflow e cw r b).ok ≠ some true →
        (trigger_jenkins_job e cw r b).ok ≠ some true →
        ciTriggerStage e cw r b =
          ⟨.num 2, "CI Trigger", .failed,
           some ("CI not configured properly. Set GITHUB_TOKEN or JENKINS_URL/JENKINS_JOB. Details: "
             ++ (trigger_github_workflow e cw r b).msg ++ ", " ++ (trigger_jenkins_job e cw r b).msg),
           none, none⟩)) := by
  constructor
  · intro inp e w h1 h2 h3
    simp [trigger, pipelineBody, h1, h2, h3]
  · intro e cw r b
    refine ⟨?_, ?_, ?_⟩
    · intro hg
      simp [ciTriggerStage, hg]
    · intro hg hj
      simp [ciTriggerStage, hg, hj]
    · intro hg hj
      simp [ciTriggerStage, hg, hj]

/-- Witness for C7: a concrete failed clone without CI configuration. -/
theorem clone_failure_appends_ci_trigger_witness :
    (runCmd wCloneFail.clone).1 ≠ 0 ∧
    (trigger sampleInput {} wCloneFail).response.httpStatus = 200 :=
  ⟨by decide,
   (clone_failure_appends_ci_trigger.1 sampleInput {} wCloneFail rfl (by decide) (by decide)).2⟩

/-- C8: the CI status probes map backend vocabulary exactly as claimed:
GitHub Actions in_progress/queued to in_progress, completed+success to
success, completed+other to failed, anything else to unknown; Jenkins
absent result to in_progress, SUCCESS to success, any other result to
failed. -/
theorem probe_status_mapping :
    (∀ (e : Env) (w : OverviewWorld) (code : Nat) (run : RunInfo) (rest : List RunInfo),
      truthy e.githubRepo = true → truthy e.githubToken = true →
      w.ghResp = some ⟨code, some (run :: rest)⟩ → code < 400 →
      ((run.status = some "in_progress" ∨ run.status = some "queued" →
        github_actions_status e w = some ⟨.in_progress, run.status, run.htmlUrl⟩) ∧
       (run.status = some "completed" → run.conclusion = some "success" →
        github_actions_status e w = some ⟨.success, run.conclusion, run.htmlUrl⟩) ∧
       (run.status = some "completed" → run.conclusion ≠ some "success" →
        github_actions_status e w = some ⟨.failed, run.conclusion, run.htmlUrl⟩) ∧
       (run.status ≠ some "in_progress" → run.status ≠ some "queued" →
        run.status ≠ some "completed" →
        github_actions_status e w = some ⟨.unknown, run.status, run.htmlUrl⟩))) ∧
    (∀ (e : Env) (w : OverviewWorld) (code : Nat) (b : JenkinsBody),
      truthy e.jenkinsUrl = true → truthy e.jenkinsJob = true →
      w.jenkinsResp = some ⟨code, some b⟩ → code < 400 →
      ((b.result = none → jenkins_status e w = some ⟨.in_progress, some "building", b.url⟩) ∧
       (b.result = some "SUCCESS" → jenkins_status e w = some ⟨.success, some "SUCCESS", b.url⟩) ∧
       (∀ s : String, b.result = some s → s ≠ "SUCCESS" →
        jenkins_status e w = some ⟨.failed, some s, b.url⟩))) := by
  constructor
  · intro e w code run rest h1 h2 h3 h4
    have hcode : ¬ (400 ≤ code) := by omega
    refine ⟨?_, ?_, ?_, ?_⟩
    · intro hs
      rcases hs with hs | hs <;> simp [github_actions_status, h1, h2, h3, hcode, hs]
    · intro hs hc
      simp [github_actions_status, h1, h2, h3, hcode, hs, hc]
    · intro hs hc
      simp [github_actions_status, h1, h2, h3, hcode, hs, hc]
    · intro hs1 hs2 hs3
      simp [github_actions_status, h1, h2, h3, hcode, hs1, hs2, hs3]
  · intro e w code b h1 h2 h3 h4
    have hcode : ¬ (400 ≤ code) := by omega
    refine ⟨?_, ?_, ?_⟩
    · intro hr
      simp [jenkins_status, h1, h2, h3, hcode, hr]
    · intro hr
      simp [jenkins_status, h1, h2, h3, hcode, hr]
    · intro s hr hs
      simp [jenkins_status, h1, h2, h3, hcode, hr, hs]

/-- Witness for C8: a queued GitHub Actions run maps to in_progress. -/
theorem probe_status_mapping_witness :
    truthy envGh.githubRepo = true ∧
    github_actions_status envGh owQueued =
      some ⟨.in_progress, some "queued", some "http://run"⟩ :=
  ⟨rfl, by
    have h := (probe_status_mapping.1 envGh owQueued 200
      ⟨some "queued", none, some "http://run"⟩ [] rfl rfl rfl (by decide)).1 (Or.inr rfl)
    simpa using h⟩

/-- C9 counterexample: with DOCKERHUB_REPO configured, a non-2xx (and
non-404) DockerHub reply makes the tag probe return an `unknown` probe
result rather than the absent value the claim requires for every
non-2xx response. -/
theorem dockerhub_non2xx_probe_result_cex :
    dockerhub_status envDh owDh500 = some ⟨.unknown, some "status 500", none⟩ ∧
    dockerhub_status envDh owDh500 ≠ none := by
  constructor
  · rfl
  · decide

/-- C9 amended: every probe is a total function (never raises); missing
ambient configuration, a raised network error, and a parse failure all
yield the absent value, and so does a non-2xx response for the probes
that call raise_for_status (GitHub Actions, Jenkins, Prometheus) — but
the DockerHub tag probe maps a reached non-2xx, non-404 status to an
`unknown` probe result (404 to in_progress) instead of the absent
value, and the Kubernetes probe maps a CLI CalledProcessError to a
`failed` result. -/
theorem probes_absent_on_failure_amended :
    (∀ (e : Env) (w : OverviewWorld),
      (truthy e.githubRepo = true ∧ truthy e.githubToken = true → False) →
      github_actions_status e w = none) ∧
    (∀ (e : Env) (w : OverviewWorld), w.ghResp = none → github_actions_status e w = none) ∧
    (∀ (e : Env) (w : OverviewWorld) (code : Nat) (runs : Option (List RunInfo)),
      w.ghResp = some ⟨code, runs⟩ → 400 ≤ code → github_actions_status e w = none) ∧
    (∀ (e : Env) (w : OverviewWorld) (code : Nat),
      w.ghResp = some ⟨code, none⟩ → github_actions_status e w = none) ∧
    (∀ (e : Env) (w : OverviewWorld),
      (truthy e.jenkinsUrl = true ∧ truthy e.jenkinsJob = true → False) →
      jenkins_status e w = none) ∧
    (∀ (e : Env) (w : OverviewWorld), w.jenkinsResp = none → jenkins_status e w = none) ∧
    (∀ (e : Env) (w : OverviewWorld) (code : Nat) (b : Option JenkinsBody),
      w.jenkinsResp = some ⟨code, b⟩ → 400 ≤ code → jenkins_status e w = none) ∧
    (∀ (e : Env) (w : OverviewWorld) (code : Nat),
      w.jenkinsResp = some ⟨code, none⟩ → jenkins_status e w = none) ∧
    (∀ (e : Env) (w : OverviewWorld), truthy e.dockerhubRepo = false → dockerhub_status e w = none) ∧
    (∀ (e : Env) (w : OverviewWorld), w.dhCode = none → dockerhub_status e w = none) ∧
    (∀ (e : Env) (w : OverviewWorld) (c : Nat),
      w.dhCode = some c → c ≠ 200 → c ≠ 404 →
      dockerhub_status e w = none ∨
      dockerhub_status e w = some ⟨.unknown, some ("status " ++ toString c), none⟩) ∧
    (∀ w : OverviewWorld, w.kube = KubeOutcome.exc → kubernetes_deploy_status w = none) ∧
    (∀ w : OverviewWorld, w.kube = KubeOutcome.cpe →
      kubernetes_deploy_status w = some ⟨.failed, some "kubectl error or deployment not found", none⟩) ∧
    (∀ w : OverviewWorld, w.promResp = none → prom_query w = none) ∧
    (∀ (w : OverviewWorld) (code : Nat) (b : Option PromBody),
      w.promResp = some ⟨code, b⟩ → 400 ≤ code → prom_query w = none) ∧
    (∀ (w : OverviewWorld) (code : Nat),
      w.promResp = some ⟨code, none⟩ → prom_query w = none) := by
  refine ⟨?_, ?_, ?_, ?_, ?_, ?_, ?_, ?_, ?_, ?_, ?_, ?_, ?_, ?_, ?_, ?_⟩
  · intro e w h
    have hcond : truthy e.githubRepo = false ∨ truthy e.githubToken = false := by
      cases hg : truthy e.githubRepo <;> cases ht : truthy e.githubToken <;> simp_all
    rcases hcond with hc | hc <;> simp [github_actions_status, hc]
  · intro e w h
    simp [github_actions_status, h]
  · intro e w code runs h h4
    simp [github_actions_status, h, h4]
  · intro e w code h
    simp [github_actions_status, h]
  · intro e w h
    have hcond : truthy e.jenkinsUrl = false ∨ truthy e.jenkinsJob = false := by
      cases hg : truthy e.jenkinsUrl <;> cases ht : truthy e.jenkinsJob <;> simp_all
    rcases hcond with hc | hc <;> simp [jenkins_status, hc]
  · intro e w h
    simp [jenkins_status, h]
  · intro e w code b h h4
    simp [jenkins_status, h, h4]
  · intro e w code h
    simp [jenkins_status, h]
  · intro e w h
    simp [dockerhub_status, h]
  · intro e w h
    simp [dockerhub_status, h]
  · intro e w c h h2 h3
    by_cases hr : truthy e.dockerhubRepo = false
    · left
      simp [dockerhub_status, hr]
    · right
      have hr2 : truthy e.dockerhubRepo = true := by simp_all
      simp [dockerhub_status, hr2, h, h2, h3]
  · intro w h
    simp [kubernetes_deploy_status, h]
  · intro w h
    simp [kubernetes_deploy_status, h]
  · intro w h
    simp [prom_query, h]
  · intro w code b h h4
    simp [prom_query, h, h4]
  · intro w code h
    simp [prom_query, h]

/-- Witness for C9 amended: the GitHub Actions probe with no
configuration at all returns the absent value. -/
theorem probes_absent_on_failure_amended_witness :
    ((truthy (({} : Env)).githubRepo = true ∧ truthy (({} : Env)).githubToken = true → False)) ∧
    github_actions_status {} {} = none :=
  ⟨by decide, probes_absent_on_failure_amended.1 {} {} (by decide)⟩

/-- C10: the later definitions of trigger_github_workflow and
trigger_jenkins_job shadow the earlier ones at every call site: the name
resolves to the second definition; with GITHUB_TOKEN unset the effective
GitHub trigger returns None (not False as the first definition does);
the effective Jenkins trigger does not require JENKINS_TOKEN while the
first definition does; the effective GitHub trigger only ever issues
POST requests, dispatching the fixed workflow file ci-cd.yml and never
listing workflows; and the CI fallback stage succeeds through the second
definition in a world where the first would have failed. -/
theorem duplicate_trigger_defs_shadowed :
    (trigger_github_workflow = trigger_github_workflow_def2 ∧
     trigger_jenkins_job = trigger_jenkins_job_def2) ∧
    trigger_github_workflow_def1 envNoCI ciW0 "owner/name" "main" ≠
      trigger_github_workflow envNoCI ciW0 "owner/name" "main" ∧
    ((trigger_github_workflow envNoCI ciW0 "owner/name" "main").ok = none ∧
     (trigger_github_workflow_def1 envNoCI ciW0 "owner/name" "main").ok = some false) ∧
    trigger_jenkins_job_def1 envJenkins2 ciWJen201 "owner/name" "main" ≠
      trigger_jenkins_job envJenkins2 ciWJen201 "owner/name" "main" ∧
    ((trigger_jenkins_job envJenkins2 ciWJen201 "owner/name" "main").ok = some true ∧
     (trigger_jenkins_job_def1 envJenkins2 ciWJen201 "owner/name" "main").msg =
       "Jenkins configuration incomplete") ∧
    (∀ (e : Env) (cw : CIWorld) (r b : String),
      ((trigger_github_workflow e cw r b).calls.all (fun c => c.method == "POST")) = true) ∧
    ((trigger_github_workflow envTok ciW204 "owner/name" "main").calls =
      [⟨"POST", "https://api.github.com/repos/owner/name/actions/workflows/ci-cd.yml/dispatches"⟩] ∧
     ciTriggerStage envTok ciW204 "owner/name" "main" =
       ⟨.num 2, "CI Trigger", .success, some "GitHub Actions workflow triggered successfully", none, none⟩ ∧
     (trigger_github_workflow_def1 envTok ciW204 "owner/name" "main").ok = some false) := by
  refine ⟨⟨rfl, rfl⟩, by decide, ⟨rfl, rfl⟩, by decide, ⟨rfl, rfl⟩, ?_, ⟨by decide, by decide, by decide⟩⟩
  intro e cw r b
  simp only [trigger_github_workflow, trigger_github_workflow_def2]
  repeat' split
  all_goals rfl

/-- Witness for C10: the effective GitHub trigger only issues POST
requests at a concrete configuration. -/
theorem duplicate_trigger_defs_shadowed_witness :
    ((trigger_github_workflow envTok ciW204 "owner/name" "main").calls.all
      (fun c => c.method == "POST")) = true :=
  duplicate_trigger_defs_shadowed.2.2.2.2.2.1 envTok ciW204 "owner/name" "main"
